import Mathlib

/-!
Verification development for the gocommonlog alerting library.

Shallow embedding of the core of the repository:
  - `cache/cache.go` : the in-process `InMemoryCache` (lazy expiry on `Get`).
  - `types.go`       : alert levels, `Config`, `Attachment`, channel resolver.
  - `providers` (Slack, Lark): message formatting, send-method dispatch,
    webhook/webclient outcome shapes, and the Lark token / chat-id cache
    layer with its Redis-or-in-memory fallback.
  - `logger.go`      : the dispatch orchestrator (`Logger.Send`,
    `Logger.SendToChannel`, `Logger.CustomSend`).

Modelling conventions:
  - Wall-clock time is an `Int` of seconds; `time.Duration` values are
    converted to seconds (90 minutes = 5400 s, 30 days = 2592000 s).
  - Go maps used as caches are association lists; `sync.Map`
    `Load`/`Store`/`Delete` become `dataLoad`/`dataStore`/`dataDelete`.
  - HTTP endpoints are oracles passed in explicitly: the Lark token
    endpoint is an `Option TokenResp` (`none` = network/decode failure),
    the paginated chat-listing endpoint is the `List ChatPage` of
    responses it serves, in order, one per request.
  - Go's `(value, error)` returns become `Except String _`; a Go run-time
    panic (failed non-ok type assertion) is the distinct outcome
    constructor `goPanic`, never an error return.
  - The external Redis store is a field of `LarkState`; `redisUp = false`
    models an unreachable store (failed ping), and a missing
    `redis_host`/`redis_port` in the provider configuration makes
    `getRedisClient` fail regardless of `redisUp`, exactly as in the
    source.
-/

namespace Gocommonlog

/-! ## types.go -/

/-- Alert level `INFO` (iota 0 in types.go). -/
def INFO : Int := 0

/-- Alert level `WARN` (iota 1 in types.go). -/
def WARN : Int := 1

/-- Alert level `ERROR` (iota 2 in types.go). -/
def ERROR : Int := 2

/-- Lark app credentials (`LarkTokenConfig` in types.go). -/
structure LarkTokenConfig where
  appID : String
  appSecret : String
deriving DecidableEq

/-- A file attachment (`Attachment` in types.go): public URL, optional
file name, inline content. -/
structure Attachment where
  url : String
  fileName : String
  content : String
deriving DecidableEq

/-- A heterogeneous value stored in the `ProviderConfig`
`map[string]interface{}` of the configuration. -/
inductive CfgValue where
  | str (s : String)
  | int (n : Int)
  | bool (b : Bool)
  | lark (l : LarkTokenConfig)
deriving DecidableEq

/-- Lookup in a Go map (or `sync.Map`) modelled as an association list. -/
def mapLoad {β : Type} (d : List (String × β)) (k : String) : Option β :=
  (d.find? (fun kv => kv.1 == k)).map (fun kv => kv.2)

/-- Go map assignment / `sync.Map` `Store` (replace an existing key, else
append). -/
def mapStore {β : Type} (d : List (String × β)) (k : String) (v : β) :
    List (String × β) :=
  if (d.find? (fun kv => kv.1 == k)).isSome then
    d.map (fun kv => if kv.1 == k then (kv.1, v) else kv)
  else
    d ++ [(k, v)]

/-- Go map deletion / `sync.Map` `Delete`. -/
def mapDelete {β : Type} (d : List (String × β)) (k : String) :
    List (String × β) :=
  d.filter (fun kv => !(kv.1 == k))

/-- Lookup in the `ProviderConfig` `map[string]interface{}`. -/
def pcLookup (pc : List (String × CfgValue)) (k : String) : Option CfgValue :=
  mapLoad pc k

/-- Map assignment `pc[k] = v`. -/
def pcSet (pc : List (String × CfgValue)) (k : String) (v : CfgValue) :
    List (String × CfgValue) :=
  mapStore pc k v

/-- Go's comma-ok string type assertion `pc[k].(string)`: `some s` exactly
when the key is present and holds a string. -/
def pcGetStr (pc : List (String × CfgValue)) (k : String) : Option String :=
  match pcLookup pc k with
  | some (.str s) => some s
  | _ => none

/-- Go's comma-ok bool type assertion `pc[k].(bool)` with `false` default
(the `v, _ := ...` form used for `redis_ssl` / `redis_cluster_mode`). -/
def pcGetBool (pc : List (String × CfgValue)) (k : String) : Bool :=
  match pcLookup pc k with
  | some (.bool b) => b
  | _ => false

/-- Library configuration (`Config` in types.go).  The channel resolver is
modelled as an optional resolution function (the `ChannelResolver`
interface).  `providerConfig` is the provider-specific settings map that
`NewLogger` populates and the providers read (`cfg.ProviderConfig` in
logger.go and the provider files). -/
structure Config where
  provider : String
  sendMethod : String
  token : String
  slackToken : String
  larkToken : LarkTokenConfig
  channel : String
  channelResolver : Option (Int → String)
  serviceName : String
  environment : String
  redisHost : String
  redisPort : String
  debug : Bool
  providerConfig : List (String × CfgValue)

/-- The zero-value configuration (all Go zero values, empty settings map). -/
def Config.empty : Config :=
  { provider := "", sendMethod := "", token := "", slackToken := ""
    larkToken := { appID := "", appSecret := "" }, channel := ""
    channelResolver := none, serviceName := "", environment := ""
    redisHost := "", redisPort := "", debug := false, providerConfig := [] }

/-- The map-based `DefaultChannelResolver` of types.go. -/
structure DefaultChannelResolver where
  channelMap : List (Int × String)
  defaultChannel : String

/-- `DefaultChannelResolver.ResolveChannel`: the mapped channel when the
level is a key of the map, else the default channel. -/
def DefaultChannelResolver.ResolveChannel (r : DefaultChannelResolver)
    (level : Int) : String :=
  match (r.channelMap.find? (fun kv => kv.1 == level)).map (fun kv => kv.2) with
  | some channel => channel
  | none => r.defaultChannel

/-! ## cache/cache.go -/

/-- A cache entry (`cacheItem`): value plus absolute expiry time in
seconds. -/
structure cacheItem where
  value : String
  expiry : Int
deriving DecidableEq

/-- `sync.Map` `Load` on the association list backing the cache. -/
def dataLoad (d : List (String × cacheItem)) (key : String) : Option cacheItem :=
  mapLoad d key

/-- `sync.Map` `Store`. -/
def dataStore (d : List (String × cacheItem)) (key : String) (item : cacheItem) :
    List (String × cacheItem) :=
  mapStore d key item

/-- `sync.Map` `Delete`. -/
def dataDelete (d : List (String × cacheItem)) (key : String) :
    List (String × cacheItem) :=
  mapDelete d key

/-- The in-process cache (`InMemoryCache` in cache/cache.go). -/
structure InMemoryCache where
  data : List (String × cacheItem)
deriving DecidableEq

/-- `InMemoryCache.Get` at wall-clock time `now`: a miss returns
`("", false)`; an entry with `time.Now().After(expiry)` (strictly
`item.expiry < now`) is deleted and reported as a miss; otherwise the
value is returned.  The updated cache is returned alongside to make the
eviction side effect explicit. -/
def InMemoryCache.Get (c : InMemoryCache) (now : Int) (key : String) :
    (String × Bool) × InMemoryCache :=
  match dataLoad c.data key with
  | none => (("", false), c)
  | some item =>
    if item.expiry < now then
      (("", false), ⟨dataDelete c.data key⟩)
    else
      ((item.value, true), c)

/-- `InMemoryCache.Set` at time `now` with a duration in seconds: stores
the value with absolute expiry `now + duration`. -/
def InMemoryCache.Set (c : InMemoryCache) (now : Int) (key value : String)
    (duration : Int) : InMemoryCache :=
  ⟨dataStore c.data key { value := value, expiry := now + duration }⟩

/-- `InMemoryCache.Delete`. -/
def InMemoryCache.Delete (c : InMemoryCache) (key : String) : InMemoryCache :=
  ⟨dataDelete c.data key⟩

/-! ## providers: the Lark token / chat-id cache layer -/

/-- An entry of the external Redis store: value plus the TTL in seconds it
was stored with (`0` is Redis's "no expiry", as in `client.Set(..., 0)`). -/
structure RedisEntry where
  value : String
  ttlSeconds : Int
deriving DecidableEq

/-- Redis `GET` on the store's association list. -/
def redisLoad (r : List (String × RedisEntry)) (key : String) : Option RedisEntry :=
  mapLoad r key

/-- Redis `SET` (replace an existing key, else append). -/
def redisStore (r : List (String × RedisEntry)) (key : String) (e : RedisEntry) :
    List (String × RedisEntry) :=
  mapStore r key e

/-- The mutable state the Lark cache layer acts on: whether the external
Redis store answers pings, the store's contents, and the in-process
global cache (`cache.GetGlobalCache()`). -/
structure LarkState where
  redisUp : Bool
  redis : List (String × RedisEntry)
  mem : InMemoryCache
deriving DecidableEq

/-- `getRedisClient`: a client is obtained exactly when `redis_host` and
`redis_port` are present (as nonempty strings) in the provider
configuration, cluster mode is off (the Go code returns an error for
cluster mode), and the store answers the ping.  Every failure mode is an
error return in Go; here the Bool says whether a client was obtained. -/
def getRedisClient (cfg : Config) (st : LarkState) : Bool :=
  match pcGetStr cfg.providerConfig "redis_host" with
  | none => false
  | some host =>
    if host = "" then false
    else
      match pcGetStr cfg.providerConfig "redis_port" with
      | none => false
      | some port =>
        if port = "" then false
        else if pcGetBool cfg.providerConfig "redis_cluster_mode" then false
        else st.redisUp

/-- The token cache key `"commonlog_lark_token:<app_id>:<app_secret>"`. -/
def tokenKey (appID appSecret : String) : String :=
  "commonlog_lark_token:" ++ appID ++ ":" ++ appSecret

/-- The chat-id cache key
`"commonlog_lark_chat_id:<environment>:<channel_name>"`. -/
def chatIDKey (cfg : Config) (channelName : String) : String :=
  "commonlog_lark_chat_id:" ++ cfg.environment ++ ":" ++ channelName

/-- `cacheLarkToken`: Redis `SET` with a fixed 90-minute TTL, falling back
to the in-process cache (also 90 minutes, 5400 s) when no client is
obtained.  Note: this function exists in the source but is not called by
`getTenantAccessToken`, which performs its own inline Redis write. -/
def cacheLarkToken (cfg : Config) (st : LarkState) (now : Int)
    (appID appSecret token : String) : Except String Unit × LarkState :=
  let key := tokenKey appID appSecret
  if getRedisClient cfg st then
    (.ok (), { st with redis := redisStore st.redis key { value := token, ttlSeconds := 5400 } })
  else
    (.ok (), { st with mem := st.mem.Set now key token 5400 })

/-- `cacheChatID`: Redis `SET` with TTL `0` (no expiry), falling back to
the in-process cache with a 30-day (2592000 s) expiry when no client is
obtained.  Neither path surfaces an error. -/
def cacheChatID (cfg : Config) (st : LarkState) (now : Int)
    (channelName chatID : String) : Except String Unit × LarkState :=
  let key := chatIDKey cfg channelName
  if getRedisClient cfg st then
    (.ok (), { st with redis := redisStore st.redis key { value := chatID, ttlSeconds := 0 } })
  else
    (.ok (), { st with mem := st.mem.Set now key chatID 2592000 })

/-- `getCachedLarkToken`: Redis `GET` (a Redis miss, `redis.Nil`, is the
empty string with no error); when no client is obtained, falls back to
the in-process cache, whose lazy-expiry `Get` may evict a stale entry —
the updated state is returned.  An empty result string means "no cached
token". -/
def getCachedLarkToken (cfg : Config) (st : LarkState) (now : Int)
    (appID appSecret : String) : Except String String × LarkState :=
  let key := tokenKey appID appSecret
  if getRedisClient cfg st then
    match redisLoad st.redis key with
    | some e => (.ok e.value, st)
    | none => (.ok "", st)
  else
    let r := st.mem.Get now key
    if r.1.2 then (.ok r.1.1, { st with mem := r.2 })
    else (.ok "", { st with mem := r.2 })

/-- `getCachedChatID`: same shape as `getCachedLarkToken`, on the chat-id
key. -/
def getCachedChatID (cfg : Config) (st : LarkState) (now : Int)
    (channelName : String) : Except String String × LarkState :=
  let key := chatIDKey cfg channelName
  if getRedisClient cfg st then
    match redisLoad st.redis key with
    | some e => (.ok e.value, st)
    | none => (.ok "", st)
  else
    let r := st.mem.Get now key
    if r.1.2 then (.ok r.1.1, { st with mem := r.2 })
    else (.ok "", { st with mem := r.2 })

/-- The Lark token endpoint's decoded response
(`{code, msg, tenant_access_token, expire}`). -/
structure TokenResp where
  code : Int
  msg : String
  token : String
  expire : Int
deriving DecidableEq

/-- The result `getTenantAccessToken` derives from the upstream token
endpoint alone: network/decode failure or a non-zero logical code is an
error, otherwise the fresh token. -/
def larkTokenUpstream (ep : Option TokenResp) : Except String String :=
  match ep with
  | none => .error "lark token endpoint: network error"
  | some r => if r.code = 0 then .ok r.token else .error ("lark token error: " ++ r.msg)

/-- `getTenantAccessToken`: read-through token fetch.  Checks the cache
(via `getCachedLarkToken`); on a miss, consults the token endpoint
(modelled by the oracle `ep`; `none` = network or decode failure).  On
success it computes `expireSeconds = expire - 600`, floored to `60` when
non-positive, and performs an inline Redis `SET` with that TTL — but only
when a Redis client is obtained; otherwise caching is skipped entirely
("Redis not configured, skip caching but continue with token") and the
fresh token is still returned without error. -/
def getTenantAccessToken (cfg : Config) (ep : Option TokenResp)
    (st : LarkState) (now : Int) (appID appSecret : String) :
    Except String String × LarkState :=
  match getCachedLarkToken cfg st now appID appSecret with
  | (.error e, st') => (.error ("failed to get Redis client: " ++ e), st')
  | (.ok cached, st') =>
    if cached ≠ "" then (.ok cached, st')
    else
      match ep with
      | none => (.error "lark token endpoint: network error", st')
      | some r =>
        if r.code ≠ 0 then (.error ("lark token error: " ++ r.msg), st')
        else
          let expireSeconds := r.expire - 600
          let expireSeconds := if expireSeconds ≤ 0 then 60 else expireSeconds
          let key := tokenKey appID appSecret
          if getRedisClient cfg st' then
            (.ok r.token,
             { st' with redis := redisStore st'.redis key { value := r.token, ttlSeconds := expireSeconds } })
          else
            (.ok r.token, st')

/-- One item of a chat-listing page (`{chat_id, name}`). -/
structure ChatItem where
  chatID : String
  name : String
deriving DecidableEq

/-- One response of the paginated chat-listing endpoint: HTTP status,
logical code and message, the page's items, the continuation
`page_token`, and `has_more`. -/
structure ChatPage where
  status : Int
  code : Int
  msg : String
  items : List ChatItem
  pageToken : String
  hasMore : Bool
deriving DecidableEq

/-- A single-quote character, for error messages naming a channel. -/
def sq : String := (Char.ofNat 39).toString

/-- The pagination loop of `getChatIDFromChannelName`.  `pageToken` is the
continuation token the next request carries (initially empty); `pages`
are the responses the endpoint serves, in order, one per request.  Each
page is scanned in order for an item whose name equals the channel name;
on a match the chat id is cached (`cacheChatID`, its error ignored — the
Go code only prints a warning) and returned.  While `has_more` is true
the loop continues with the returned `page_token`; a `has_more = false`
page without a match ends the loop with an error naming the channel.
The returned list collects the `page_token` of every request made, so
the number of endpoint queries is its length. -/
def larkChatsLoop (cfg : Config) (st : LarkState) (now : Int)
    (channelName : String) (pageToken : String) (pages : List ChatPage) :
    Except String String × LarkState × List String :=
  match pages with
  | [] => (.error "lark chats API response: network error", st, [pageToken])
  | page :: rest =>
    if page.status ≠ 200 then
      (.error ("lark chats API response: " ++ toString page.status), st, [pageToken])
    else if page.code ≠ 0 then
      (.error ("lark API error: " ++ page.msg), st, [pageToken])
    else
      match page.items.find? (fun item => item.name == channelName) with
      | some item =>
        let c := cacheChatID cfg st now channelName item.chatID
        (.ok item.chatID, c.2, [pageToken])
      | none =>
        if page.hasMore then
          let r := larkChatsLoop cfg st now channelName page.pageToken rest
          (r.1, r.2.1, pageToken :: r.2.2)
        else
          (.error ("channel " ++ sq ++ channelName ++ sq ++ " not found"), st, [pageToken])

/-- `getChatIDFromChannelName`: checks the cache first (`getCachedChatID`);
a nonempty cached id is returned with no endpoint request.  On a miss it
pages through the chat-listing endpoint starting from an empty
`page_token`.  The third component counts the endpoint requests made. -/
def getChatIDFromChannelName (cfg : Config) (st : LarkState) (now : Int)
    (token channelName : String) (pages : List ChatPage) :
    Except String String × LarkState × Nat :=
  match getCachedChatID cfg st now channelName with
  | (.error e, st') => (.error ("failed to get Redis client: " ++ e), st', 0)
  | (.ok cached, st') =>
    if cached ≠ "" then (.ok cached, st', 0)
    else
      let r := larkChatsLoop cfg st' now channelName "" pages
      (r.1, r.2.1, r.2.2.length)

/-! ## providers: Slack -/

/-- The attachment sections a Slack message body ends with: an inline
content code block labelled by the file name (default label
"Trace Logs"), then a URL line; both render when both are present. -/
def slackAttachmentSection (att : Option Attachment) : String :=
  match att with
  | none => ""
  | some a =>
    (if a.content ≠ "" then
      let filename := if a.fileName = "" then "Trace Logs" else a.fileName
      "\n\n*" ++ filename ++ ":*\n```\n" ++ a.content ++ "\n```"
     else "") ++
    (if a.url ≠ "" then "\n\n*Attachment:* " ++ a.url else "")

/-- `SlackProvider.formatMessage`: optional bold bracketed
service/environment header, the message text, then the attachment
sections. -/
def SlackProvider.formatMessage (message : String) (att : Option Attachment)
    (cfg : Config) : String :=
  (if cfg.serviceName ≠ "" ∧ cfg.environment ≠ "" then
    "*[" ++ cfg.serviceName ++ " - " ++ cfg.environment ++ "]*\n"
   else if cfg.serviceName ≠ "" then
    "*[" ++ cfg.serviceName ++ "]*\n"
   else if cfg.environment ≠ "" then
    "*[" ++ cfg.environment ++ "]*\n"
   else "")
  ++ message ++ slackAttachmentSection att

/-- What a Slack send attempt amounts to before any HTTP response is
seen.  `goPanic` models a Go run-time panic (a failed non-ok type
assertion); `errNoNet` is an error returned before any network request;
`webhookPost`/`apiPost` are the outbound HTTP requests the code reaches
(their success then depends on the network, which no claim here needs). -/
inductive SlackOutcome where
  | goPanic (msg : String)
  | errNoNet (msg : String)
  | webhookPost (url : String) (text : String) (channel : Option String)
  | apiPost (url : String) (token : String) (channel : String) (text : String)
deriving DecidableEq

/-- `sendSlackWebhook`: reads the webhook URL with the non-ok type
assertion `cfg.ProviderConfig["token"].(string)` — an absent key (or a
non-string value) is a nil-interface conversion, i.e. a Go panic.  An
empty URL is an immediate error; otherwise a JSON POST is issued, with
the channel included in the payload only when nonempty. -/
def SlackProvider.sendSlackWebhook (message : String) (att : Option Attachment)
    (cfg : Config) : SlackOutcome :=
  let formatted := SlackProvider.formatMessage message att cfg
  match pcGetStr cfg.providerConfig "token" with
  | none => .goPanic "interface conversion: interface is nil, not string"
  | some webhookURL =>
    if webhookURL = "" then
      .errNoNet "webhook URL is required for Slack webhook method"
    else
      .webhookPost webhookURL formatted (if cfg.channel ≠ "" then some cfg.channel else none)

/-- `sendSlackWebClient`: reads the generic token with the same non-ok
type assertion (absent key panics), overridden by a nonempty
`slack_token` when present; then an authenticated POST to the fixed
Slack API endpoint. -/
def SlackProvider.sendSlackWebClient (message : String) (att : Option Attachment)
    (cfg : Config) : SlackOutcome :=
  let formatted := SlackProvider.formatMessage message att cfg
  match pcGetStr cfg.providerConfig "token" with
  | none => .goPanic "interface conversion: interface is nil, not string"
  | some token =>
    let token :=
      match pcGetStr cfg.providerConfig "slack_token" with
      | some slackToken => if slackToken ≠ "" then slackToken else token
      | none => token
    .apiPost "https://slack.com/api/chat.postMessage" token cfg.channel formatted

/-- `SlackProvider.SendToChannel`: copies the config with the channel
overridden, then dispatches on the send method; any method other than
"webclient" and "webhook" is an immediate error naming the value. -/
def SlackProvider.SendToChannel (_level : Int) (message : String)
    (att : Option Attachment) (cfg : Config) (channel : String) : SlackOutcome :=
  let cfgCopy := { cfg with channel := channel }
  if cfgCopy.sendMethod = "webclient" then
    SlackProvider.sendSlackWebClient message att cfgCopy
  else if cfgCopy.sendMethod = "webhook" then
    SlackProvider.sendSlackWebhook message att cfgCopy
  else
    .errNoNet ("unknown send method for Slack: " ++ cfgCopy.sendMethod)

/-! ## providers: Lark -/

/-- The attachment sections of a Lark message body (same shape as Slack's
but with `**` emphasis). -/
def larkAttachmentSection (att : Option Attachment) : String :=
  match att with
  | none => ""
  | some a =>
    (if a.content ≠ "" then
      let filename := if a.fileName = "" then "Trace Logs" else a.fileName
      "\n\n**" ++ filename ++ ":**\n```\n" ++ a.content ++ "\n```"
     else "") ++
    (if a.url ≠ "" then "\n\n**Attachment:** " ++ a.url else "")

/-- `LarkProvider.formatMessage`: returns the `(title, content)` pair of
the rich-text post.  The title defaults to "Alert" and is replaced by
service/environment when set; the content is the message text plus the
attachment sections, with no header. -/
def LarkProvider.formatMessage (message : String) (att : Option Attachment)
    (cfg : Config) : String × String :=
  let title :=
    if cfg.serviceName ≠ "" ∧ cfg.environment ≠ "" then
      cfg.serviceName ++ " - " ++ cfg.environment
    else if cfg.serviceName ≠ "" then cfg.serviceName
    else if cfg.environment ≠ "" then cfg.environment
    else "Alert"
  (title, message ++ larkAttachmentSection att)

/-- What a Lark send attempt amounts to before any HTTP response is seen.
`webclientFlow` is the authenticated flow (token exchange, chat-id
resolution, message post), which performs network activity; the claims
about that flow address its helper functions directly. -/
inductive LarkOutcome where
  | errNoNet (msg : String)
  | webhookPost (url : String) (title : String) (text : String)
  | webclientFlow (message : String) (att : Option Attachment) (cfg : Config)

/-- `sendLarkWebhook`: the webhook URL is `cfg.Token`; an empty URL is an
immediate error, otherwise the rich-text JSON POST is issued. -/
def LarkProvider.sendLarkWebhook (message : String) (att : Option Attachment)
    (cfg : Config) : LarkOutcome :=
  let tf := LarkProvider.formatMessage message att cfg
  if cfg.token = "" then
    .errNoNet "webhook URL is required for Lark webhook method"
  else
    .webhookPost cfg.token tf.1 tf.2

/-- `LarkProvider.SendToChannel`: copies the config with the channel
overridden, then dispatches on the send method; any method other than
"webclient" and "webhook" is an immediate error naming the value. -/
def LarkProvider.SendToChannel (_level : Int) (message : String)
    (att : Option Attachment) (cfg : Config) (channel : String) : LarkOutcome :=
  let cfgCopy := { cfg with channel := channel }
  if cfgCopy.sendMethod = "webclient" then
    .webclientFlow message att cfgCopy
  else if cfgCopy.sendMethod = "webhook" then
    LarkProvider.sendLarkWebhook message att cfgCopy
  else
    .errNoNet ("unknown send method for Lark: " ++ cfgCopy.sendMethod)

/-! ## logger.go -/

/-- The provider implementations the factory can return. -/
inductive ProviderKind where
  | slack
  | lark
deriving DecidableEq

/-- `createProvider`: by name, with Slack as the default for any
unrecognized name. -/
def createProvider (providerName : String) : ProviderKind :=
  if providerName = "slack" then .slack
  else if providerName = "lark" then .lark
  else .slack

/-- The `Logger` struct: the (post-`NewLogger`) config and the provider
instance. -/
structure Logger where
  config : Config
  provider : ProviderKind

/-- The `ProviderConfig` population `NewLogger` performs: top-level
fields are copied in (when nonempty) for backward compatibility, and a
"provider" entry defaulting to "slack" is ensured. -/
def NewLoggerConfig (cfg : Config) : Config :=
  let pc := cfg.providerConfig
  let pc := if cfg.provider ≠ "" then pcSet pc "provider" (.str cfg.provider) else pc
  let pc := if cfg.token ≠ "" then pcSet pc "token" (.str cfg.token) else pc
  let pc := if cfg.slackToken ≠ "" then pcSet pc "slack_token" (.str cfg.slackToken) else pc
  let pc :=
    if cfg.larkToken.appID ≠ "" || cfg.larkToken.appSecret ≠ "" then
      pcSet pc "lark_token" (.lark cfg.larkToken)
    else pc
  let pc := if (pcLookup pc "provider").isNone then pcSet pc "provider" (.str "slack") else pc
  { cfg with providerConfig := pc }

/-- `NewLogger`: populates the settings map, reads the provider name back
out of it (falling back to "slack" when it is not a string), and creates
the provider. -/
def NewLogger (cfg : Config) : Logger :=
  let cfg := NewLoggerConfig cfg
  let providerName :=
    match pcGetStr cfg.providerConfig "provider" with
    | some s => s
    | none => "slack"
  { config := cfg, provider := createProvider providerName }

/-- `Logger.resolveChannel`: the configured resolver when present, else
the default channel. -/
def Logger.resolveChannel (l : Logger) (level : Int) : String :=
  match l.config.channelResolver with
  | some r => r level
  | none => l.config.channel

/-- The trace-merge block that appears, duplicated verbatim, in
`Logger.SendToChannel` (logger.go lines 103-122) and `Logger.CustomSend`
(lines 163-179).  Returns the attachment handed on to the provider and
— since the Go code mutates through the caller's `*Attachment` pointer —
the value the caller's own attachment object holds after the call
(`none` when the caller passed nil; a fresh trace attachment created for
a nil caller attachment is not visible to the caller). -/
def mergeTraceAttachment (attachment : Option Attachment) (trace : String) :
    Option Attachment × Option Attachment :=
  if trace = "" then (attachment, attachment)
  else
    match attachment with
    | some a =>
      if a.content ≠ "" then
        let a' := { a with content := a.content ++ "\n\n--- Trace Log ---\n" ++ trace }
        (some a', some a')
      else
        let a' := { a with content := trace, fileName := "trace.log" }
        (some a', some a')
    | none =>
      (some { url := "", fileName := "trace.log", content := trace }, none)

/-- The call a non-INFO send delegates to the selected provider's
dispatcher. -/
structure ProviderCall where
  provider : ProviderKind
  level : Int
  message : String
  attachment : Option Attachment
  cfg : Config
  channel : String

/-- The observable outcome of an orchestrator send: the returned error,
the line written to the local log (INFO only), the provider dispatch
performed (none for INFO — no network activity at all), and the caller's
attachment object after the call. -/
structure SendOutcome where
  err : Option String
  localLog : Option String
  dispatched : Option ProviderCall
  callerAttachment : Option Attachment

/-- `Logger.SendToChannel`: INFO is written locally and returns nil with
no provider involvement; otherwise the channel is resolved (explicit
override wins), the trace is merged into the attachment, and the
provider's dispatcher is invoked on a config copy carrying the resolved
channel.  `providerRun` abstracts the selected dispatcher's result (the
error the provider returns), which the orchestrator passes through
unchanged. -/
def Logger.SendToChannel (l : Logger) (providerRun : ProviderCall → Option String)
    (level : Int) (message : String) (attachment : Option Attachment)
    (trace : String) (channel : String) : SendOutcome :=
  if level = INFO then
    { err := none, localLog := some ("[INFO] " ++ message)
      dispatched := none, callerAttachment := attachment }
  else
    let resolvedChannel := if channel = "" then l.resolveChannel level else channel
    let sendConfig := { l.config with channel := resolvedChannel }
    let m := mergeTraceAttachment attachment trace
    let call : ProviderCall :=
      { provider := l.provider, level := level, message := message
        attachment := m.1, cfg := sendConfig, channel := resolvedChannel }
    { err := providerRun call, localLog := none
      dispatched := some call, callerAttachment := m.2 }

/-- `Logger.Send`: `SendToChannel` with no channel override. -/
def Logger.Send (l : Logger) (providerRun : ProviderCall → Option String)
    (level : Int) (message : String) (attachment : Option Attachment)
    (trace : String) : SendOutcome :=
  l.SendToChannel providerRun level message attachment trace ""

/-- `Logger.CustomSend`: like `SendToChannel` but dispatching to a
provider created from the given name (the nil-provider branch in the
source is dead code — `createProvider` never returns nil).  INFO again
returns nil with no provider involvement. -/
def Logger.CustomSend (l : Logger) (providerRun : ProviderCall → Option String)
    (provider : String) (level : Int) (message : String)
    (attachment : Option Attachment) (trace : String) (channel : String) :
    SendOutcome :=
  let customProvider := createProvider provider
  if level = INFO then
    { err := none, localLog := some ("[INFO] " ++ message)
      dispatched := none, callerAttachment := attachment }
  else
    let resolvedChannel := if channel = "" then l.resolveChannel level else channel
    let sendConfig := { l.config with channel := resolvedChannel }
    let m := mergeTraceAttachment attachment trace
    let call : ProviderCall :=
      { provider := customProvider, level := level, message := message
        attachment := m.1, cfg := sendConfig, channel := resolvedChannel }
    { err := providerRun call, localLog := none
      dispatched := some call, callerAttachment := m.2 }

/-! ## Concrete scenarios used by counterexamples and witnesses -/

/-- A configuration selecting the unsupported send method "ftp". -/
def cfgFtp : Config := { Config.empty with sendMethod := "ftp" }

/-- The configuration a caller obtains from `NewLogger` with provider
"slack", send method "webhook" and an empty `Token`: the settings map
then carries no "token" key at all. -/
def cfgC8slack : Config :=
  (NewLogger { Config.empty with provider := "slack", sendMethod := "webhook" }).config

/-- The same configuration with an explicit empty-string "token" entry
present in the settings map. -/
def cfgC8slackEmptyTok : Config :=
  { cfgC8slack with providerConfig := pcSet cfgC8slack.providerConfig "token" (.str "") }

/-- A configuration with service name and environment both set. -/
def cfgSvcEnv : Config :=
  { Config.empty with serviceName := "svc", environment := "prod" }

/-- The effective token TTL the spec describes: the server-declared
lifetime minus the 600-second safety margin, floored to 60 seconds when
the subtraction is non-positive. -/
def effectiveTokenTTL (expire : Int) : Int :=
  if expire - 600 ≤ 0 then 60 else expire - 600

/-- A Lark state whose external Redis store answers pings and is empty,
with an empty in-process cache. -/
def stUp : LarkState := { redisUp := true, redis := [], mem := ⟨[]⟩ }

/-- A configuration with the Redis connection parameters present in the
provider settings map (so `getRedisClient` succeeds when the store is
up). -/
def cfgRedis : Config :=
  { Config.empty with providerConfig :=
      [("redis_host", .str "localhost"), ("redis_port", .str "6379")] }

/-- A chat-listing page that does not contain the channel "alerts" and
reports more pages, continuing at token "p2". -/
def pageMiss : ChatPage :=
  { status := 200, code := 0, msg := ""
    items := [{ chatID := "oc_1", name := "other" }]
    pageToken := "p2", hasMore := true }

/-- A chat-listing page containing the channel "alerts" with chat id
"oc_42", reporting no more pages. -/
def pageHit : ChatPage :=
  { status := 200, code := 0, msg := ""
    items := [{ chatID := "oc_42", name := "alerts" }]
    pageToken := "", hasMore := false }

/-- A chat-listing page that is served successfully (HTTP 200, logical
code 0) but contains no item whose name equals the channel name. -/
def pageClean (channelName : String) (p : ChatPage) : Prop :=
  p.status = 200 ∧ p.code = 0 ∧
    p.items.find? (fun item => item.name == channelName) = none

/-! ## Helper lemmas on the association-list map operations -/

theorem mapLoad_mapStore_self {β : Type} (d : List (String × β)) (k : String)
    (v : β) : mapLoad (mapStore d k v) k = some v := by
  unfold mapStore
  cases hf : (d.find? (fun kv => kv.1 == k)) with
  | some kv =>
    have hp := List.find?_some hf
    have hk : kv.1 = k := by simpa using hp
    have hcomp : ((fun kv : String × β => kv.1 == k) ∘
        (fun kv : String × β => if kv.1 == k then (kv.1, v) else kv)) =
        (fun kv : String × β => kv.1 == k) := by
      funext p
      by_cases h : p.1 = k <;> simp [h]
    rw [if_pos (show (some kv).isSome = true from rfl)]
    unfold mapLoad
    rw [List.find?_map, hcomp, hf]
    simp [hk]
  | none =>
    rw [if_neg (show ((none : Option (String × β)).isSome = true) → False from by simp)]
    unfold mapLoad
    rw [List.find?_append, hf]
    simp

theorem mapLoad_mapDelete_self {β : Type} (d : List (String × β)) (k : String) :
    mapLoad (mapDelete d k) k = none := by
  simp only [mapLoad, mapDelete]
  rw [List.find?_eq_none.mpr]
  · rfl
  · intro kv hkv
    have h1 := List.of_mem_filter hkv
    simpa using h1

theorem InMemoryCache.Get_fst_of_false (c : InMemoryCache) (now : Int)
    (key : String) : (c.Get now key).1.2 = false → (c.Get now key).1.1 = "" := by
  unfold InMemoryCache.Get
  split
  · intro _; rfl
  · split
    · intro _; rfl
    · intro h; simp at h

theorem larkChatsLoop_found (cfg : Config) (st : LarkState) (now : Int)
    (name : String) (page : ChatPage) (rest : List ChatPage) (it : ChatItem)
    (pfx : List ChatPage)
    (hstatus : page.status = 200) (hcode : page.code = 0)
    (hfind : page.items.find? (fun item => item.name == name) = some it)
    (hpfx : ∀ p ∈ pfx, pageClean name p ∧ p.hasMore = true) (ptok : String) :
    larkChatsLoop cfg st now name ptok (pfx ++ page :: rest) =
      (.ok it.chatID, (cacheChatID cfg st now name it.chatID).2,
       ptok :: pfx.map ChatPage.pageToken) := by
  revert hpfx
  induction pfx generalizing ptok with
  | nil =>
    intro _
    simp only [List.nil_append]
    unfold larkChatsLoop
    rw [if_neg (show ¬(page.status ≠ 200) from fun hh => hh hstatus)]
    rw [if_neg (show ¬(page.code ≠ 0) from fun hh => hh hcode)]
    rw [hfind]
    simp
  | cons p tl ih =>
    intro hpfx
    have hp := hpfx p (List.mem_cons_self p tl)
    have htl : ∀ q ∈ tl, pageClean name q ∧ q.hasMore = true :=
      fun q hq => hpfx q (List.mem_cons_of_mem p hq)
    simp only [List.cons_append]
    unfold larkChatsLoop
    rw [if_neg (show ¬(p.status ≠ 200) from fun hh => hh hp.1.1)]
    rw [if_neg (show ¬(p.code ≠ 0) from fun hh => hh hp.1.2.1)]
    rw [hp.1.2.2, hp.2]
    rw [ih p.pageToken htl]
    simp

theorem larkChatsLoop_exhausted (cfg : Config) (st : LarkState) (now : Int)
    (name : String) (last : ChatPage) (pfx : List ChatPage)
    (hlast : pageClean name last) (hmore : last.hasMore = false)
    (hpfx : ∀ p ∈ pfx, pageClean name p ∧ p.hasMore = true) (ptok : String) :
    larkChatsLoop cfg st now name ptok (pfx ++ [last]) =
      (.error ("channel " ++ sq ++ name ++ sq ++ " not found"), st,
       ptok :: pfx.map ChatPage.pageToken) := by
  revert hpfx
  induction pfx generalizing ptok with
  | nil =>
    intro _
    simp only [List.nil_append]
    unfold larkChatsLoop
    rw [if_neg (show ¬(last.status ≠ 200) from fun hh => hh hlast.1)]
    rw [if_neg (show ¬(last.code ≠ 0) from fun hh => hh hlast.2.1)]
    rw [hlast.2.2, hmore]
    simp
  | cons p tl ih =>
    intro hpfx
    have hp := hpfx p (List.mem_cons_self p tl)
    have htl : ∀ q ∈ tl, pageClean name q ∧ q.hasMore = true :=
      fun q hq => hpfx q (List.mem_cons_of_mem p hq)
    simp only [List.cons_append]
    unfold larkChatsLoop
    rw [if_neg (show ¬(p.status ≠ 200) from fun hh => hh hp.1.1)]
    rw [if_neg (show ¬(p.code ≠ 0) from fun hh => hh hp.1.2.1)]
    rw [hp.1.2.2, hp.2]
    rw [ih p.pageToken htl]
    simp

/-! ## Claim theorems -/

/-- C4: for every key, value and `ttl > 0`, after `Set(key, value, ttl)` a
`Get(key)` before the ttl elapses returns `(value, true)` and leaves the
cache unchanged, while a `Get(key)` after the ttl has elapsed returns
`("", false)` and removes the stale entry from the internal storage, so
the key behaves like one that was never set. -/
theorem claim_C4_cache_ttl (c : InMemoryCache) (key value : String)
    (ttl t t' : Int) (httl : 0 < ttl) :
    (t' < t + ttl →
      (c.Set t key value ttl).Get t' key = ((value, true), c.Set t key value ttl)) ∧
    (t + ttl < t' →
      ((c.Set t key value ttl).Get t' key).1 = ("", false) ∧
      dataLoad ((c.Set t key value ttl).Get t' key).2.data key = none) := by
  have hload : mapLoad (c.Set t key value ttl).data key =
      some { value := value, expiry := t + ttl } := by
    simp [InMemoryCache.Set, dataStore, mapLoad_mapStore_self]
  constructor
  · intro hbefore
    simp only [InMemoryCache.Get, dataLoad, hload]
    rw [if_neg (by omega)]
  · intro hafter
    simp only [InMemoryCache.Get, dataLoad, hload]
    rw [if_pos (by omega)]
    refine ⟨rfl, ?_⟩
    simp [dataLoad, dataDelete, mapLoad_mapDelete_self]

/-- C4 witness: a concrete run with ttl 10 set at time 0 — a read at
time 5 hits with the value, a read at time 11 misses and evicts. -/
theorem claim_C4_cache_ttl_witness :
    ((InMemoryCache.mk []).Set 0 "k" "v" 10).Get 5 "k" =
      (("v", true), (InMemoryCache.mk []).Set 0 "k" "v" 10) ∧
    ((((InMemoryCache.mk []).Set 0 "k" "v" 10).Get 11 "k").1 = ("", false) ∧
      dataLoad ((((InMemoryCache.mk []).Set 0 "k" "v" 10).Get 11 "k").2).data "k" = none) :=
  ⟨(claim_C4_cache_ttl (InMemoryCache.mk []) "k" "v" 10 0 5 (by decide)).1 (by decide),
   (claim_C4_cache_ttl (InMemoryCache.mk []) "k" "v" 10 0 11 (by decide)).2 (by decide)⟩

/-- C5: a send at level INFO — through `Send`, `SendToChannel` or
`CustomSend` — returns no error and invokes no provider dispatcher
(hence performs no outbound network call); the message is only written
to the local log. -/
theorem claim_C5_info_local_only (l : Logger) (pr : ProviderCall → Option String)
    (m : String) (att : Option Attachment) (tr ch pname : String) :
    (l.SendToChannel pr INFO m att tr ch).err = none ∧
    (l.SendToChannel pr INFO m att tr ch).dispatched = none ∧
    (l.SendToChannel pr INFO m att tr ch).localLog = some ("[INFO] " ++ m) ∧
    (l.CustomSend pr pname INFO m att tr ch).err = none ∧
    (l.CustomSend pr pname INFO m att tr ch).dispatched = none ∧
    (l.CustomSend pr pname INFO m att tr ch).localLog = some ("[INFO] " ++ m) ∧
    (l.Send pr INFO m att tr).err = none ∧
    (l.Send pr INFO m att tr).dispatched = none := by
  simp [Logger.SendToChannel, Logger.CustomSend, Logger.Send]

/-- C6: for a non-INFO send with non-empty trace `tr`, the attachment the
orchestrator hands to the provider is: the caller's attachment with
`"\n\n--- Trace Log ---\n" ++ tr` appended to its non-empty inline
content; the caller's attachment with content set to `tr` and file name
"trace.log" when its content was empty; or a fresh attachment with file
name "trace.log" and content `tr` when no attachment was passed. -/
theorem claim_C6_trace_merge (l : Logger) (pr : ProviderCall → Option String)
    (level : Int) (m : String) (a : Attachment) (tr ch : String)
    (hlvl : level ≠ INFO) (htr : tr ≠ "") :
    (a.content ≠ "" →
      (l.SendToChannel pr level m (some a) tr ch).dispatched.map ProviderCall.attachment =
        some (some { a with content := a.content ++ "\n\n--- Trace Log ---\n" ++ tr })) ∧
    (a.content = "" →
      (l.SendToChannel pr level m (some a) tr ch).dispatched.map ProviderCall.attachment =
        some (some { a with content := tr, fileName := "trace.log" })) ∧
    (l.SendToChannel pr level m none tr ch).dispatched.map ProviderCall.attachment =
      some (some { url := "", fileName := "trace.log", content := tr }) := by
  refine ⟨fun hc => ?_, fun hc => ?_, ?_⟩
  · simp [Logger.SendToChannel, mergeTraceAttachment, hlvl, htr, hc]
  · simp [Logger.SendToChannel, mergeTraceAttachment, hlvl, htr, hc]
  · simp [Logger.SendToChannel, mergeTraceAttachment, hlvl, htr]

/-- C6 witness: at level ERROR with trace "B", an attachment with inline
content "A" is handed on with the separator appended, and a nil
attachment becomes a "trace.log" attachment carrying "B". -/
theorem claim_C6_trace_merge_witness :
    ((Logger.mk Config.empty .slack).SendToChannel (fun _ => none) ERROR "m"
        (some { url := "", fileName := "f.txt", content := "A" }) "B" "c").dispatched.map
        ProviderCall.attachment =
      some (some { url := "", fileName := "f.txt", content := "A\n\n--- Trace Log ---\nB" }) ∧
    ((Logger.mk Config.empty .slack).SendToChannel (fun _ => none) ERROR "m"
        none "B" "c").dispatched.map ProviderCall.attachment =
      some (some { url := "", fileName := "trace.log", content := "B" }) := by
  have h := claim_C6_trace_merge (Logger.mk Config.empty .slack) (fun _ => none) ERROR "m"
    { url := "", fileName := "f.txt", content := "A" } "B" "c" (by decide) (by decide)
  exact ⟨by simpa using h.1 (by decide), h.2.2⟩

/-- C10: for a non-INFO send with non-empty trace, `SendToChannel` and
`CustomSend` mutate the caller's attachment object in place — the
caller's object afterwards is the merged attachment (content appended
with the separator and trace, or set to the trace with file name
"trace.log"), and it differs from the attachment the caller passed in. -/
theorem claim_C10_attachment_mutated (l : Logger) (pr : ProviderCall → Option String)
    (level : Int) (m : String) (a : Attachment) (tr ch pname : String)
    (hlvl : level ≠ INFO) (htr : tr ≠ "") :
    (a.content ≠ "" →
      (l.SendToChannel pr level m (some a) tr ch).callerAttachment =
        some { a with content := a.content ++ "\n\n--- Trace Log ---\n" ++ tr } ∧
      (l.CustomSend pr pname level m (some a) tr ch).callerAttachment =
        some { a with content := a.content ++ "\n\n--- Trace Log ---\n" ++ tr } ∧
      ({ a with content := a.content ++ "\n\n--- Trace Log ---\n" ++ tr } : Attachment) ≠ a) ∧
    (a.content = "" →
      (l.SendToChannel pr level m (some a) tr ch).callerAttachment =
        some { a with content := tr, fileName := "trace.log" } ∧
      (l.CustomSend pr pname level m (some a) tr ch).callerAttachment =
        some { a with content := tr, fileName := "trace.log" } ∧
      ({ a with content := tr, fileName := "trace.log" } : Attachment) ≠ a) := by
  constructor
  · intro hc
    refine ⟨?_, ?_, ?_⟩
    · simp [Logger.SendToChannel, mergeTraceAttachment, hlvl, htr, hc]
    · simp [Logger.CustomSend, mergeTraceAttachment, hlvl, htr, hc]
    · intro heq
      have hcontent := congrArg Attachment.content heq
      simp only at hcontent
      have hlen := congrArg String.length hcontent
      rw [String.length_append, String.length_append] at hlen
      have hsep : ("\n\n--- Trace Log ---\n" : String).length = 20 := rfl
      omega
  · intro hc
    refine ⟨?_, ?_, ?_⟩
    · simp [Logger.SendToChannel, mergeTraceAttachment, hlvl, htr, hc]
    · simp [Logger.CustomSend, mergeTraceAttachment, hlvl, htr, hc]
    · intro heq
      have hcontent := congrArg Attachment.content heq
      simp only at hcontent
      rw [hc] at hcontent
      exact htr hcontent

/-- C10 witness: a concrete ERROR send with trace "B" rewrites the
caller's attachment (content "A", and empty content) in place. -/
theorem claim_C10_attachment_mutated_witness :
    ((Logger.mk Config.empty .slack).SendToChannel (fun _ => none) ERROR "m"
        (some { url := "", fileName := "f.txt", content := "A" }) "B" "c").callerAttachment =
      some { url := "", fileName := "f.txt", content := "A\n\n--- Trace Log ---\nB" } ∧
    ((Logger.mk Config.empty .slack).CustomSend (fun _ => none) "lark" ERROR "m"
        (some { url := "", fileName := "f.txt", content := "" }) "B" "c").callerAttachment =
      some { url := "", fileName := "trace.log", content := "B" } := by
  have h1 := (claim_C10_attachment_mutated (Logger.mk Config.empty .slack) (fun _ => none)
    ERROR "m" { url := "", fileName := "f.txt", content := "A" } "B" "c" "lark"
    (by decide) (by decide)).1 (by decide)
  have h2 := (claim_C10_attachment_mutated (Logger.mk Config.empty .slack) (fun _ => none)
    ERROR "m" { url := "", fileName := "f.txt", content := "" } "B" "c" "lark"
    (by decide) (by decide)).2 rfl
  exact ⟨by simpa using h1.1, by simpa using h2.2.1⟩

/-- C7: for every send method other than "webclient" and "webhook", both
providers' `SendToChannel` immediately return an error naming the
invalid value — the outcome is `errNoNet`, i.e. no network request is
ever built or issued. -/
theorem claim_C7_unknown_send_method (level : Int) (m : String)
    (att : Option Attachment) (cfg : Config) (ch : String)
    (h1 : cfg.sendMethod ≠ "webclient") (h2 : cfg.sendMethod ≠ "webhook") :
    SlackProvider.SendToChannel level m att cfg ch =
      .errNoNet ("unknown send method for Slack: " ++ cfg.sendMethod) ∧
    LarkProvider.SendToChannel level m att cfg ch =
      .errNoNet ("unknown send method for Lark: " ++ cfg.sendMethod) := by
  constructor <;>
    simp [SlackProvider.SendToChannel, LarkProvider.SendToChannel, h1, h2]

/-- C7 witness: the send method "ftp" is rejected by both providers with
an error naming it, before any network activity. -/
theorem claim_C7_unknown_send_method_witness :
    SlackProvider.SendToChannel ERROR "m" none cfgFtp "c" =
      .errNoNet ("unknown send method for Slack: " ++ "ftp") ∧
    LarkProvider.SendToChannel ERROR "m" none cfgFtp "c" =
      .errNoNet ("unknown send method for Lark: " ++ "ftp") :=
  claim_C7_unknown_send_method ERROR "m" none cfgFtp "c" (by decide) (by decide)

/-- C8 (code bug): Lark webhook dispatch with an empty credential returns
the "webhook URL is required" configuration error with no network call,
and so does Slack when the settings map holds an empty-string "token" —
but a Slack webhook send whose settings map lacks the "token" key
entirely (exactly what `NewLogger` produces when `Token` is empty) hits
the non-ok type assertion `cfg.ProviderConfig["token"].(string)` on a
nil interface and panics instead of returning the configuration error. -/
theorem claim_C8_webhook_url_missing :
    SlackProvider.SendToChannel WARN "boom" none cfgC8slack "c" =
      .goPanic "interface conversion: interface is nil, not string" ∧
    SlackProvider.SendToChannel WARN "boom" none cfgC8slackEmptyTok "c" =
      .errNoNet "webhook URL is required for Slack webhook method" ∧
    LarkProvider.SendToChannel WARN "boom" none
        { Config.empty with sendMethod := "webhook" } "c" =
      .errNoNet "webhook URL is required for Lark webhook method" :=
  ⟨rfl, rfl, rfl⟩

/-- C9 counterexample: with neither service name nor environment set, the
Lark formatter does not leave the output un-headed — the title of the
rich-text post is the default "Alert", not empty. -/
theorem claim_C9_counterexample :
    (LarkProvider.formatMessage "m" none Config.empty).1 = "Alert" ∧
    (LarkProvider.formatMessage "m" none Config.empty).1 ≠ "" :=
  ⟨rfl, by decide⟩

/-- C9 (amended): with both service name and environment set, the Slack
output is prefixed by `"*[service - environment]*"` plus newline and the
Lark title is `"service - environment"`; with exactly one of them set,
the prefix/title carries just that value; with neither set, Slack adds
no header while the Lark title defaults to "Alert". -/
theorem claim_C9_header_rules (cfg : Config) (m : String)
    (att : Option Attachment) :
    (cfg.serviceName ≠ "" → cfg.environment ≠ "" →
      SlackProvider.formatMessage m att cfg =
        "*[" ++ cfg.serviceName ++ " - " ++ cfg.environment ++ "]*\n" ++ m ++
          slackAttachmentSection att ∧
      (LarkProvider.formatMessage m att cfg).1 =
        cfg.serviceName ++ " - " ++ cfg.environment) ∧
    (cfg.serviceName ≠ "" → cfg.environment = "" →
      SlackProvider.formatMessage m att cfg =
        "*[" ++ cfg.serviceName ++ "]*\n" ++ m ++ slackAttachmentSection att ∧
      (LarkProvider.formatMessage m att cfg).1 = cfg.serviceName) ∧
    (cfg.serviceName = "" → cfg.environment ≠ "" →
      SlackProvider.formatMessage m att cfg =
        "*[" ++ cfg.environment ++ "]*\n" ++ m ++ slackAttachmentSection att ∧
      (LarkProvider.formatMessage m att cfg).1 = cfg.environment) ∧
    (cfg.serviceName = "" → cfg.environment = "" →
      SlackProvider.formatMessage m att cfg = m ++ slackAttachmentSection att ∧
      (LarkProvider.formatMessage m att cfg).1 = "Alert") := by
  refine ⟨fun hs he => ?_, fun hs he => ?_, fun hs he => ?_, fun hs he => ?_⟩ <;>
    constructor <;>
      simp [SlackProvider.formatMessage, LarkProvider.formatMessage, hs, he]

/-- C9 witness: with service "svc" and environment "prod" the Slack
output carries the `*[svc - prod]*` header and the Lark title is
"svc - prod". -/
theorem claim_C9_header_rules_witness :
    SlackProvider.formatMessage "m" none cfgSvcEnv =
      "*[svc - prod]*\n" ++ "m" ++ slackAttachmentSection none ∧
    (LarkProvider.formatMessage "m" none cfgSvcEnv).1 = "svc - prod" := by
  have h := (claim_C9_header_rules cfgSvcEnv "m" none).1 (by decide) (by decide)
  exact ⟨by rw [h.1]; rfl, by rw [h.2]; rfl⟩

/-- C1 counterexample: with the Redis connection parameters absent from
the provider configuration, a fresh token fetch succeeds — but the write
does NOT fall back to the in-process cache: the state is returned
untouched, and a read of the token key from the in-process cache still
misses afterwards. -/
theorem claim_C1_counterexample :
    getTenantAccessToken Config.empty
        (some { code := 0, msg := "", token := "T", expire := 3600 }) stUp 0 "a" "s" =
      (.ok "T", stUp) ∧
    ((getTenantAccessToken Config.empty
        (some { code := 0, msg := "", token := "T", expire := 3600 }) stUp 0 "a" "s").2.mem.Get
        0 (tokenKey "a" "s")).1.2 = false :=
  ⟨rfl, rfl⟩

/-- C1 (amended): when no Redis client can be obtained (store unreachable
or `redis_host`/`redis_port` missing from the provider configuration),
no cache-layer error is ever surfaced: token and chat-id reads fall back
to the in-process cache, the chat-id write falls back to the in-process
cache (with a 30-day TTL), and the fresh-token write in
`getTenantAccessToken` is skipped entirely (the in-process cache is not
written), the call succeeding or failing on the upstream fetch alone. -/
theorem claim_C1_cache_fallback (cfg : Config) (st : LarkState) (now : Int)
    (appID appSecret name cid : String) (ep : Option TokenResp)
    (hdown : getRedisClient cfg st = false) :
    getCachedLarkToken cfg st now appID appSecret =
      (.ok ((st.mem.Get now (tokenKey appID appSecret)).1.1),
       { st with mem := (st.mem.Get now (tokenKey appID appSecret)).2 }) ∧
    getCachedChatID cfg st now name =
      (.ok ((st.mem.Get now (chatIDKey cfg name)).1.1),
       { st with mem := (st.mem.Get now (chatIDKey cfg name)).2 }) ∧
    cacheChatID cfg st now name cid =
      (.ok (), { st with mem := st.mem.Set now (chatIDKey cfg name) cid 2592000 }) ∧
    ((st.mem.Get now (tokenKey appID appSecret)).1.2 = false →
      getTenantAccessToken cfg ep st now appID appSecret =
        (larkTokenUpstream ep,
         { st with mem := (st.mem.Get now (tokenKey appID appSecret)).2 })) := by
  refine ⟨?_, ?_, ?_, ?_⟩
  · unfold getCachedLarkToken
    rw [hdown]
    simp only [Bool.false_eq_true, if_false]
    cases hr : (st.mem.Get now (tokenKey appID appSecret)).1.2
    · rw [InMemoryCache.Get_fst_of_false st.mem now (tokenKey appID appSecret) hr]
      exact rfl
    · rfl
  · unfold getCachedChatID
    rw [hdown]
    simp only [Bool.false_eq_true, if_false]
    cases hr : (st.mem.Get now (chatIDKey cfg name)).1.2
    · rw [InMemoryCache.Get_fst_of_false st.mem now (chatIDKey cfg name) hr]
      exact rfl
    · rfl
  · unfold cacheChatID
    rw [hdown]
    simp
  · intro hm
    have hv := InMemoryCache.Get_fst_of_false st.mem now (tokenKey appID appSecret) hm
    unfold getTenantAccessToken getCachedLarkToken
    rw [hdown]
    simp only [Bool.false_eq_true, if_false, hm, hv]
    rw [if_neg (show ¬(("" : String) ≠ "") from by simp)]
    cases ep with
    | none => simp [larkTokenUpstream]
    | some r =>
      by_cases hc : r.code = 0
      · have hdown2 : getRedisClient cfg
            { st with mem := (st.mem.Get now (tokenKey appID appSecret)).2 } = false := hdown
        simp [larkTokenUpstream, hc, hdown2]
      · simp [larkTokenUpstream, hc]

/-- C1 witness: with an empty provider configuration (no Redis
parameters), the chat-id write lands in the in-process cache with the
30-day TTL and a fresh-token fetch succeeds on the upstream response
with the state only touched by the cache read. -/
theorem claim_C1_cache_fallback_witness :
    cacheChatID Config.empty stUp 0 "chan" "cid" =
      (.ok (), { stUp with mem := stUp.mem.Set 0 (chatIDKey Config.empty "chan") "cid" 2592000 }) ∧
    getTenantAccessToken Config.empty (some { code := 0, msg := "", token := "T", expire := 3600 })
        stUp 0 "a" "s" =
      (larkTokenUpstream (some { code := 0, msg := "", token := "T", expire := 3600 }),
       { stUp with mem := (stUp.mem.Get 0 (tokenKey "a" "s")).2 }) := by
  have h := claim_C1_cache_fallback Config.empty stUp 0 "a" "s" "chan" "cid"
    (some { code := 0, msg := "", token := "T", expire := 3600 }) (by decide)
  exact ⟨h.2.2.1, h.2.2.2 (by decide)⟩

/-- C2: when a Redis client is obtained and the token cache misses, a
fresh token with server lifetime `expire` is stored with effective TTL
`expire - 600`, floored to 60 seconds when that difference is
non-positive, and the fresh token is returned. -/
theorem claim_C2_token_ttl (cfg : Config) (st : LarkState) (now : Int)
    (appID appSecret : String) (r : TokenResp)
    (hredis : getRedisClient cfg st = true)
    (hmiss : redisLoad st.redis (tokenKey appID appSecret) = none)
    (hcode : r.code = 0) :
    getTenantAccessToken cfg (some r) st now appID appSecret =
      (.ok r.token,
       { st with redis := (redisStore st.redis (tokenKey appID appSecret)
             ⟨r.token, effectiveTokenTTL r.expire⟩) }) ∧
    redisLoad (getTenantAccessToken cfg (some r) st now appID appSecret).2.redis
        (tokenKey appID appSecret) =
      some ⟨r.token, effectiveTokenTTL r.expire⟩ := by
  have h1 : getTenantAccessToken cfg (some r) st now appID appSecret =
      (.ok r.token,
       { st with redis := (redisStore st.redis (tokenKey appID appSecret)
             ⟨r.token, effectiveTokenTTL r.expire⟩) }) := by
    unfold getTenantAccessToken getCachedLarkToken
    rw [hredis]
    simp only [if_true, hmiss]
    simp only [ne_eq, not_true_eq_false, if_false, hcode, not_false_eq_true, if_true, hredis,
      effectiveTokenTTL]
  refine ⟨h1, ?_⟩
  rw [h1]
  exact mapLoad_mapStore_self _ _ _

/-- C2 witness: with Redis configured and reachable, `expire = 3600`
caches the token with TTL 3000 and `expire = 300` floors the TTL to
60 seconds. -/
theorem claim_C2_token_ttl_witness :
    redisLoad (getTenantAccessToken cfgRedis
        (some ⟨0, "", "tok", 3600⟩) stUp 0 "a" "s").2.redis
        (tokenKey "a" "s") = some ⟨"tok", 3000⟩ ∧
    redisLoad (getTenantAccessToken cfgRedis
        (some ⟨0, "", "tok", 300⟩) stUp 0 "a" "s").2.redis
        (tokenKey "a" "s") = some ⟨"tok", 60⟩ := by
  have h1 := (claim_C2_token_ttl cfgRedis stUp 0 "a" "s"
    ⟨0, "", "tok", 3600⟩ (by decide) rfl rfl).2
  have h2 := (claim_C2_token_ttl cfgRedis stUp 0 "a" "s"
    ⟨0, "", "tok", 300⟩ (by decide) rfl rfl).2
  constructor
  · rw [h1]; rfl
  · rw [h2]; rfl

/-- C3 (amended): chat-id lookup.  A nonempty cached id is returned with
no endpoint query.  On a cache miss the lookup pages through the
listing, following the continuation while `has_more` is true: if the
first match appears on page `k` (after `k - 1` clean pages), the item's
chat id is returned, `k` requests are made, and the id is cached — with
no expiry in the external store, but with a 30-day TTL in the in-process
fallback cache; a subsequent lookup of the same channel (within the TTL
in the fallback case) is served from cache with zero endpoint requests.
If a `has_more = false` page is reached without a match, the lookup
errors naming the channel after querying every page. -/
theorem claim_C3_chat_lookup (cfg : Config) (st : LarkState) (now : Int)
    (tok name : String) (pages : List ChatPage) :
    (∀ cid st2, getCachedChatID cfg st now name = (.ok cid, st2) → cid ≠ "" →
      getChatIDFromChannelName cfg st now tok name pages = (.ok cid, st2, 0)) ∧
    (getCachedChatID cfg st now name = (.ok "", st) →
      (∀ pfx page rest it, pages = pfx ++ page :: rest →
        (∀ p ∈ pfx, pageClean name p ∧ p.hasMore = true) →
        page.status = 200 → page.code = 0 →
        page.items.find? (fun item => item.name == name) = some it →
        getChatIDFromChannelName cfg st now tok name pages =
          (.ok it.chatID, (cacheChatID cfg st now name it.chatID).2, pfx.length + 1) ∧
        (getRedisClient cfg st = true →
          redisLoad (cacheChatID cfg st now name it.chatID).2.redis (chatIDKey cfg name) =
            some ⟨it.chatID, 0⟩) ∧
        (getRedisClient cfg st = false →
          dataLoad (cacheChatID cfg st now name it.chatID).2.mem.data (chatIDKey cfg name) =
            some ⟨it.chatID, now + 2592000⟩) ∧
        (it.chatID ≠ "" → ∀ now2 pages2,
          (getRedisClient cfg st = false → now2 ≤ now + 2592000) →
          getChatIDFromChannelName cfg (cacheChatID cfg st now name it.chatID).2 now2 tok
              name pages2 =
            (.ok it.chatID, (cacheChatID cfg st now name it.chatID).2, 0))) ∧
      (∀ pfx last, pages = pfx ++ [last] →
        (∀ p ∈ pfx, pageClean name p ∧ p.hasMore = true) →
        pageClean name last → last.hasMore = false →
        getChatIDFromChannelName cfg st now tok name pages =
          (.error ("channel " ++ sq ++ name ++ sq ++ " not found"), st,
           pfx.length + 1))) := by
  constructor
  · intro cid st2 hhit hcid
    unfold getChatIDFromChannelName
    rw [hhit]
    simp [hcid]
  · intro hmiss
    constructor
    · intro pfx page rest it hpages hpfx hstatus hcode hfind
      subst hpages
      have hloop := larkChatsLoop_found cfg st now name page rest it pfx
        hstatus hcode hfind hpfx ""
      refine ⟨?_, ?_, ?_, ?_⟩
      · unfold getChatIDFromChannelName
        rw [hmiss]
        simp only [ne_eq, not_true_eq_false, if_false, hloop]
        simp
      · intro hredis
        unfold cacheChatID
        rw [hredis]
        simp only [if_true]
        exact mapLoad_mapStore_self _ _ _
      · intro hdown
        unfold cacheChatID
        rw [hdown]
        simp only [Bool.false_eq_true, if_false]
        exact mapLoad_mapStore_self _ _ _
      · intro hcid now2 pages2 htime
        cases hredis : getRedisClient cfg st with
        | true =>
          have hst3 : (cacheChatID cfg st now name it.chatID).2 =
              { st with redis :=
                  (redisStore st.redis (chatIDKey cfg name) ⟨it.chatID, 0⟩) } := by
            unfold cacheChatID
            rw [hredis]
            simp
          have hcached : getCachedChatID cfg (cacheChatID cfg st now name it.chatID).2
              now2 name =
              (.ok it.chatID, (cacheChatID cfg st now name it.chatID).2) := by
            rw [hst3]
            unfold getCachedChatID
            rw [show getRedisClient cfg
              { st with redis :=
                  (redisStore st.redis (chatIDKey cfg name) ⟨it.chatID, 0⟩) } = true
              from hredis]
            simp [show redisLoad
              (redisStore st.redis (chatIDKey cfg name) ⟨it.chatID, 0⟩)
              (chatIDKey cfg name) = some ⟨it.chatID, 0⟩
              from mapLoad_mapStore_self _ _ _]
          unfold getChatIDFromChannelName
          rw [hcached]
          simp [hcid]
        | false =>
          have hst3 : (cacheChatID cfg st now name it.chatID).2 =
              { st with mem :=
                  (st.mem.Set now (chatIDKey cfg name) it.chatID 2592000) } := by
            unfold cacheChatID
            rw [hredis]
            simp
          have hget : (st.mem.Set now (chatIDKey cfg name) it.chatID 2592000).Get now2
              (chatIDKey cfg name) =
              ((it.chatID, true),
               (st.mem.Set now (chatIDKey cfg name) it.chatID 2592000)) := by
            have hnot : ¬(now + 2592000 < now2) := by
              have := htime hredis
              omega
            unfold InMemoryCache.Get InMemoryCache.Set
            rw [show dataLoad
              (dataStore st.mem.data (chatIDKey cfg name) ⟨it.chatID, now + 2592000⟩)
              (chatIDKey cfg name) = some ⟨it.chatID, now + 2592000⟩
              from mapLoad_mapStore_self _ _ _]
            simp [hnot]
          have hcached : getCachedChatID cfg (cacheChatID cfg st now name it.chatID).2
              now2 name =
              (.ok it.chatID, (cacheChatID cfg st now name it.chatID).2) := by
            rw [hst3]
            unfold getCachedChatID
            rw [show getRedisClient cfg
              { st with mem :=
                  (st.mem.Set now (chatIDKey cfg name) it.chatID 2592000) } =
                false from hredis]
            simp [hget]
          unfold getChatIDFromChannelName
          rw [hcached]
          simp [hcid]
    · intro pfx last hpages hpfx hlast hmore
      subst hpages
      have hloop := larkChatsLoop_exhausted cfg st now name last pfx hlast hmore hpfx ""
      unfold getChatIDFromChannelName
      rw [hmiss]
      simp only [ne_eq, not_true_eq_false, if_false, hloop]
      simp

/-- C3 witness: the paginated mock serves the target "alerts" on page 2;
the lookup returns "oc_42" after two endpoint requests, and a second
lookup at a later time is served from cache with zero requests even when
the endpoint would serve nothing. -/
theorem claim_C3_chat_lookup_witness :
    getChatIDFromChannelName Config.empty stUp 0 "tok" "alerts" [pageMiss, pageHit] =
      (.ok "oc_42", (cacheChatID Config.empty stUp 0 "alerts" "oc_42").2, 2) ∧
    getChatIDFromChannelName Config.empty (cacheChatID Config.empty stUp 0 "alerts" "oc_42").2
        5 "tok" "alerts" [] =
      (.ok "oc_42", (cacheChatID Config.empty stUp 0 "alerts" "oc_42").2, 0) := by
  have h := (claim_C3_chat_lookup Config.empty stUp 0 "tok" "alerts" [pageMiss, pageHit]).2 rfl
  have hf := h.1 [pageMiss] pageHit [] ⟨"oc_42", "alerts"⟩ rfl
    (by
      intro p hp
      simp only [List.mem_singleton] at hp
      subst hp
      exact ⟨⟨rfl, rfl, rfl⟩, rfl⟩)
    rfl rfl rfl
  exact ⟨hf.1, hf.2.2.2 (by decide) 5 [] (fun _ => by decide)⟩

/-- C3 counterexample: in the in-process fallback path (no Redis
configured) the resolved chat id is NOT cached with "no expiry": the
entry written at time 0 is still readable at the 30-day mark but is gone
one second later — it carries a finite 30-day TTL. -/
theorem claim_C3_counterexample :
    (getChatIDFromChannelName Config.empty stUp 0 "tok" "alerts" [pageHit]).1 =
      .ok "oc_42" ∧
    (((getChatIDFromChannelName Config.empty stUp 0 "tok" "alerts" [pageHit]).2.1).mem.Get
        2592000 (chatIDKey Config.empty "alerts")).1 = ("oc_42", true) ∧
    (((getChatIDFromChannelName Config.empty stUp 0 "tok" "alerts" [pageHit]).2.1).mem.Get
        2592001 (chatIDKey Config.empty "alerts")).1 = ("", false) :=
  ⟨rfl, rfl, rfl⟩

end Gocommonlog
